import Mathlib

/-!
# Verification of `NeighborDatabase` (ibrdtn routing daemon)

A shallow embedding of `ibrdtn/daemon/src/routing/NeighborDatabase.h`.

The repository source is a declarative header: it fixes the data model
(`_transit_bundles : std::set<BundleID>`, `_filter`, `_summary`,
`_filter_expire`, `_datasets : std::set<NeighborDataset>`,
`_filter_state : FILTER_REQUEST_STATE`) and the two template method bodies
`getDataset` / `removeDataset`, while the remaining method bodies live in a
translation unit that is not part of the source tree.  Those bodies are
modelled from the specification (each such definition carries a doc comment
starting with `Modelled from the spec:`); `getDataset` and `removeDataset`
are translated from the header's inline bodies.

Conventions of the embedding:
* `BundleID` and `EID` are opaque comparable keys, embedded as `Nat`.
* `std::set<BundleID>` is embedded as a `List Nat`; the set property
  (no duplicates) is the `Nodup` invariant established in the theorems.
* The bloom filter is embedded as a `List Nat`; its (probabilistic)
  membership test is `List.contains`.
* C++ exceptions become the `Except DBError` monad; a method that throws
  leaves the object unchanged, so every mutator returns
  `Except DBError Unit × NeighborEntry` (result, post-state), and `const`
  queries return `result × NeighborEntry` with the post-state equal to the
  input by construction of each branch.
-/

namespace NeighborDatabase

/-- `FILTER_REQUEST_STATE` from the header (lines 195-201). -/
inductive FILTER_REQUEST_STATE where
  | FILTER_AWAITING
  | FILTER_AVAILABLE
  | FILTER_EXPIRED
  | FILTER_FINAL
deriving DecidableEq, Repr

open FILTER_REQUEST_STATE

/-- The distinct failure conditions of the component (spec §7).  The header
declares one exception class per condition; the spec splits the reused
`NoMoreTransfersAvailable` class into the two conditions
`NoFilterRequestAvailable` and `NoTransferSlotsAvailable`, which we follow. -/
inductive DBError where
  | BloomfilterNotAvailable
  | NoTransferSlotsAvailable
  | NoFilterRequestAvailable
  | AlreadyInTransit
  | NeighborNotAvailable
  | DatasetNotAvailable
deriving DecidableEq, Repr

/-- A `NeighborDataset` (header line 192: `std::set<NeighborDataset>` keyed
by a type identifier).  `ident` is the stable `T::identifier` used as the
set key, `tyTag` the runtime (dynamic) type recovered by `dynamic_cast`,
and `value` the payload. -/
structure Dataset where
  ident : Nat
  tyTag : Nat
  value : Nat
deriving DecidableEq, Repr

/-- The state of one `NeighborEntry` (header lines 86-204). -/
structure NeighborEntry where
  eid : Nat
  /-- `_transit_bundles : std::set<dtn::data::BundleID>` (header line 184). -/
  transit_bundles : List Nat
  /-- the ledger's slot bound (`max_slots`, an integer constant per entry). -/
  max_slots : Nat
  /-- `_filter : ibrcommon::BloomFilter` (header line 187). -/
  filter : List Nat
  /-- `_summary : dtn::data::BundleSet`, the exact known set (header line 188). -/
  summary : List Nat
  /-- `_filter_expire : uint64_t` (header line 189). -/
  filter_expire : Nat
  /-- `_datasets : std::set<NeighborDataset>` (header line 193). -/
  datasets : List Dataset
  /-- `_filter_state` (header line 203). -/
  filter_state : FILTER_REQUEST_STATE
deriving DecidableEq, Repr

/-- Modelled from the spec: the `NeighborEntry(eid)` constructor (body not in
the source tree).  All sets start empty and the filter state starts in
`AWAITING` (enum default 0, spec §4.1 state machine entry point). -/
def initNeighborEntry (eid maxSlots : Nat) : NeighborEntry :=
  { eid := eid
    transit_bundles := []
    max_slots := maxSlots
    filter := []
    summary := []
    filter_expire := 0
    datasets := []
    filter_state := FILTER_AWAITING }

/-- Modelled from the spec: `NeighborEntry::acquireTransfer` (declared at
header line 116, body not in the source tree).  Spec §4.2: under the
ledger's own lock, fails with `AlreadyInTransit` if the id is already in
`in_transit`; else fails with `NoTransferSlotsAvailable` if
`in_transit.size() == max_slots`; else inserts the id and succeeds. -/
def acquireTransfer (id : Nat) (e : NeighborEntry) :
    Except DBError Unit × NeighborEntry :=
  if id ∈ e.transit_bundles then
    (Except.error DBError.AlreadyInTransit, e)
  else if e.transit_bundles.length = e.max_slots then
    (Except.error DBError.NoTransferSlotsAvailable, e)
  else
    (Except.ok (), { e with transit_bundles := id :: e.transit_bundles })

/-- Modelled from the spec: `NeighborEntry::releaseTransfer` (declared at
header line 132, body not in the source tree).  Spec §4.2: removes the id
from `in_transit` if present; idempotent; never reduces size below zero. -/
def releaseTransfer (id : Nat) (e : NeighborEntry) : NeighborEntry :=
  { e with transit_bundles := e.transit_bundles.erase id }

/-- Modelled from the spec: `NeighborEntry::getFreeTransferSlots` (declared
`const` at header line 121, body not in the source tree).  Spec §4.2:
returns `max_slots - in_transit.size()` (a point-in-time snapshot). -/
def getFreeTransferSlots (e : NeighborEntry) : Nat × NeighborEntry :=
  (e.max_slots - e.transit_bundles.length, e)

/-- Modelled from the spec: `NeighborEntry::isTransferThresholdReached`
(declared `const` at header line 126, body not in the source tree).  Spec
§4.2: true when the free slots fall at or below a fixed low-watermark
fraction of `max_slots` (modelled as half of `max_slots`). -/
def isTransferThresholdReached (e : NeighborEntry) : Bool × NeighborEntry :=
  ((getFreeTransferSlots e).1 ≤ e.max_slots / 2, e)

/-- Modelled from the spec: `NeighborEntry::add` (declared at header
line 102, body not in the source tree).  Spec §4.1: inserts the bundle's id
into the exact known set. -/
def add (id : Nat) (e : NeighborEntry) : NeighborEntry :=
  if id ∈ e.summary then e else { e with summary := id :: e.summary }

/-- Modelled from the spec: `NeighborEntry::has` (declared `const` at header
line 104, body not in the source tree).  Spec §4.1: first checks the exact
set; if absent and a fresh filter is required, fails with
`BloomfilterNotAvailable` when the filter state is `AWAITING` or `EXPIRED`;
otherwise answers with the bloom filter's membership test. -/
def has (id : Nat) («require_bloomfilter» : Bool) (e : NeighborEntry) :
    Except DBError Bool × NeighborEntry :=
  if id ∈ e.summary then
    (Except.ok true, e)
  else if «require_bloomfilter» = true ∧
      (e.filter_state = FILTER_AWAITING ∨ e.filter_state = FILTER_EXPIRED) then
    (Except.error DBError.BloomfilterNotAvailable, e)
  else
    (Except.ok (e.filter.contains id), e)

/-- Modelled from the spec: `NeighborEntry::update` (declared at header
line 98, body not in the source tree).  Spec §4.1: replaces the
probabilistic set with `bf` unconditionally; sets
`bloom_expire_at = now + lifetime` when `lifetime > 0`, else marks the
filter never-expiring (`_filter_expire = 0`); the filter state becomes
`FINAL` when `lifetime == 0`, else `AVAILABLE`. -/
def update (bf : List Nat) (lifetime now : Nat) (e : NeighborEntry) :
    NeighborEntry :=
  if lifetime = 0 then
    { e with filter := bf, filter_expire := 0, filter_state := FILTER_FINAL }
  else
    { e with filter := bf, filter_expire := now + lifetime,
             filter_state := FILTER_AVAILABLE }

/-- Modelled from the spec: `NeighborEntry::expire` (declared at header
line 141, body not in the source tree).  Spec §4.1: if the filter state is
`AVAILABLE` and `now >= bloom_expire_at`, transition to `EXPIRED`; `FINAL`
never expires; every other state is left unchanged. -/
def expire (now : Nat) (e : NeighborEntry) : NeighborEntry :=
  if e.filter_state = FILTER_AVAILABLE ∧ e.filter_expire ≤ now then
    { e with filter_state := FILTER_EXPIRED }
  else e

/-- Modelled from the spec: `NeighborEntry::acquireFilterRequest` (declared
at header line 110, body not in the source tree).  Spec §4.1: fails with
`NoFilterRequestAvailable` when a request is already outstanding or none is
needed, i.e. when the state is not `AWAITING` and not `EXPIRED`; on success
it performs no state transition (the transition happens on
`update`/`expire`). -/
def acquireFilterRequest (e : NeighborEntry) :
    Except DBError Unit × NeighborEntry :=
  if e.filter_state = FILTER_AWAITING ∨ e.filter_state = FILTER_EXPIRED then
    (Except.ok (), e)
  else
    (Except.error DBError.NoFilterRequestAvailable, e)

/-- `std::set<NeighborDataset>::find` with the probe
`NeighborDataset item(T::identifier)` (header lines 149-150): the set is
keyed by the identifier, so `find` returns the stored dataset with this
identifier, if any. -/
def findDataset (tid : Nat) (e : NeighborEntry) : Option Dataset :=
  e.datasets.find? (fun d => d.ident == tid)

/-- `NeighborEntry::getDataset<T>` translated from the header body
(lines 146-159): look the probe up in `_datasets`; throw
`DatasetNotAvailableException` if absent; `dynamic_cast` the stored item to
`T` and throw the same exception if the cast fails (`std::bad_cast`).
`tid` is `T::identifier` and `ttag` the dynamic type of `T`. -/
def getDataset (tid ttag : Nat) (e : NeighborEntry) :
    Except DBError Nat × NeighborEntry :=
  match findDataset tid e with
  | none => (Except.error DBError.DatasetNotAvailable, e)
  | some d =>
      if d.tyTag = ttag then (Except.ok d.value, e)
      else (Except.error DBError.DatasetNotAvailable, e)

/-- Modelled from the spec: `NeighborEntry::putDataset` (declared at header
line 165, body not in the source tree).  Spec §4.3: stores the dataset
keyed by its declared type identifier, replacing any prior dataset with the
same identifier. -/
def putDataset (d : Dataset) (e : NeighborEntry) : NeighborEntry :=
  { e with datasets := d :: e.datasets.filter (fun x => x.ident != d.ident) }

/-- `NeighborEntry::removeDataset<T>` translated from the header body
(lines 170-179): find the probe in `_datasets`; return (no-op) if absent;
otherwise erase the found element. -/
def removeDataset (tid : Nat) (e : NeighborEntry) : NeighborEntry :=
  match findDataset tid e with
  | none => e
  | some d => { e with datasets := e.datasets.erase d }

/-- The state of the `NeighborDatabase` (header lines 237-239):
`std::map<EID, NeighborEntry*>`, at most one entry per EID. -/
structure DB where
  entries : List (Nat × NeighborEntry)
deriving Repr

/-- The slot constant used for freshly constructed entries (spec §3:
`max_slots` is an integer constant). -/
def defaultMaxSlots : Nat := 5

/-- Modelled from the spec: `NeighborDatabase::get` (declared at header
line 215, body not in the source tree).  Spec §4.4: fails with
`NeighborNotAvailable` if no entry exists for the EID, else returns the
existing entry. -/
def DB.get (eid : Nat) (db : DB) : Except DBError NeighborEntry :=
  match db.entries.find? (fun p => p.1 == eid) with
  | none => Except.error DBError.NeighborNotAvailable
  | some p => Except.ok p.2

/-- Modelled from the spec: `NeighborDatabase::create` (declared at header
line 223, body not in the source tree).  Spec §4.4: returns the existing
entry if present, else constructs, inserts, and returns a new one; never
fails. -/
def DB.create (eid : Nat) (db : DB) : NeighborEntry × DB :=
  match db.entries.find? (fun p => p.1 == eid) with
  | some p => (p.2, db)
  | none =>
      let e := initNeighborEntry eid defaultMaxSlots
      (e, ⟨(eid, e) :: db.entries⟩)

/-- The operations of the transfer ledger, for stating invariants over call
sequences (spec §8, slot bound). -/
inductive LedgerOp where
  | acquire (id : Nat)
  | release (id : Nat)
deriving DecidableEq, Repr

/-- Run one ledger operation; a failing `acquireTransfer` leaves the entry
unchanged (the exception is thrown before any mutation). -/
def runLedgerOp (e : NeighborEntry) (op : LedgerOp) : NeighborEntry :=
  match op with
  | LedgerOp.acquire id => (acquireTransfer id e).2
  | LedgerOp.release id => releaseTransfer id e

/-- Run a sequence of ledger operations from a starting entry. -/
def runLedgerOps (e : NeighborEntry) (ops : List LedgerOp) : NeighborEntry :=
  ops.foldl runLedgerOp e

/-- The ledger invariant (spec §3): the in-transit set never exceeds
`max_slots` and holds each bundle id at most once. -/
def LedgerInv (e : NeighborEntry) : Prop :=
  e.transit_bundles.length ≤ e.max_slots ∧ e.transit_bundles.Nodup

/-- Convenient sample entries for the closed witness statements. -/
def eW : NeighborEntry := initNeighborEntry 0 2

/-- C1: `acquireTransfer(bundle_id)` fails with `AlreadyInTransit` if the id
is already in transit (checked first); otherwise fails with
`NoTransferSlotsAvailable` if the in-transit set is at `max_slots`;
otherwise inserts the id and succeeds; on either failure the in-transit set
(indeed the whole entry) is left unchanged. -/
theorem acquireTransfer_spec (e : NeighborEntry) (id : Nat) :
    (id ∈ e.transit_bundles →
      acquireTransfer id e = (Except.error DBError.AlreadyInTransit, e)) ∧
    (id ∉ e.transit_bundles → e.transit_bundles.length = e.max_slots →
      acquireTransfer id e = (Except.error DBError.NoTransferSlotsAvailable, e)) ∧
    (id ∉ e.transit_bundles → e.transit_bundles.length ≠ e.max_slots →
      acquireTransfer id e =
        (Except.ok (), { e with transit_bundles := id :: e.transit_bundles })) := by
  refine ⟨fun h1 => ?_, fun h1 h2 => ?_, fun h1 h2 => ?_⟩
  · simp [acquireTransfer, h1]
  · simp [acquireTransfer, h1, h2]
  · simp [acquireTransfer, h1, h2]

/-- Witness for C1: on a fresh entry with two slots, acquiring bundle 7
succeeds and inserts it. -/
theorem acquireTransfer_spec_witness :
    acquireTransfer 7 eW = (Except.ok (), { eW with transit_bundles := [7] }) := by
  exact (acquireTransfer_spec eW 7).2.2 (by decide) (by decide)

/-- C3: `has(id, require_fresh)` returns true when the id is in the exact
set, regardless of the filter state; otherwise, when a fresh filter is
required and the state is `AWAITING` or `EXPIRED`, it fails with
`BloomfilterNotAvailable`; otherwise it returns the bloom filter's
membership answer. -/
theorem has_spec (e : NeighborEntry) (id : Nat) (rf : Bool) :
    (id ∈ e.summary → has id rf e = (Except.ok true, e)) ∧
    (id ∉ e.summary → rf = true →
      (e.filter_state = FILTER_AWAITING ∨ e.filter_state = FILTER_EXPIRED) →
      has id rf e = (Except.error DBError.BloomfilterNotAvailable, e)) ∧
    (id ∉ e.summary →
      ¬(rf = true ∧
        (e.filter_state = FILTER_AWAITING ∨ e.filter_state = FILTER_EXPIRED)) →
      has id rf e = (Except.ok (e.filter.contains id), e)) := by
  refine ⟨fun h1 => ?_, fun h1 h2 h3 => ?_, fun h1 h2 => ?_⟩
  · simp [has, h1]
  · simp [has, h1, h2, h3]
  · simp [has, h1, h2]

/-- Witness for C3: a bundle in the exact set is reported as held even with
`require_fresh = true` on an entry whose filter has expired. -/
theorem has_spec_witness :
    has 5 true { eW with summary := [5], filter_state := FILTER_EXPIRED } =
      (Except.ok true, { eW with summary := [5], filter_state := FILTER_EXPIRED }) := by
  exact (has_spec { eW with summary := [5], filter_state := FILTER_EXPIRED } 5 true).1
    (by decide)

/-- C4: `acquireFilterRequest` fails with `NoFilterRequestAvailable` exactly
when the filter state is neither `AWAITING` nor `EXPIRED` (so in particular
it always fails in state `FINAL`), and on success it performs no state
transition (the entry is unchanged). -/
theorem acquireFilterRequest_spec (e : NeighborEntry) :
    ((acquireFilterRequest e).1 = Except.error DBError.NoFilterRequestAvailable ↔
      ¬(e.filter_state = FILTER_AWAITING ∨ e.filter_state = FILTER_EXPIRED)) ∧
    (e.filter_state = FILTER_FINAL →
      (acquireFilterRequest e).1 = Except.error DBError.NoFilterRequestAvailable) ∧
    ((acquireFilterRequest e).1 = Except.ok () → (acquireFilterRequest e).2 = e) := by
  by_cases h : e.filter_state = FILTER_AWAITING ∨ e.filter_state = FILTER_EXPIRED
  · refine ⟨by simp [acquireFilterRequest, h], fun hf => ?_, fun _ => ?_⟩
    · rcases h with h | h <;> rw [hf] at h <;> exact absurd h (by decide)
    · simp [acquireFilterRequest, h]
  · simp [acquireFilterRequest, h]

/-- Witness for C4: in state `FINAL` the request is refused. -/
theorem acquireFilterRequest_spec_witness :
    (acquireFilterRequest { eW with filter_state := FILTER_FINAL }).1 =
      Except.error DBError.NoFilterRequestAvailable := by
  exact (acquireFilterRequest_spec { eW with filter_state := FILTER_FINAL }).2.1 rfl

/-- C5: `update(bf, lifetime)` replaces the stored filter with `bf`
unconditionally; when `lifetime > 0` it sets the expiry to `now + lifetime`
and the state to `AVAILABLE`; when `lifetime == 0` it sets the state to
`FINAL` and the filter never expires (no later `expire` changes the
state). -/
theorem update_spec (e : NeighborEntry) (bf : List Nat) (lifetime now : Nat) :
    (update bf lifetime now e).filter = bf ∧
    (0 < lifetime →
      (update bf lifetime now e).filter_expire = now + lifetime ∧
      (update bf lifetime now e).filter_state = FILTER_AVAILABLE) ∧
    (lifetime = 0 →
      (update bf lifetime now e).filter_state = FILTER_FINAL ∧
      ∀ t, (expire t (update bf lifetime now e)).filter_state = FILTER_FINAL) := by
  by_cases h : lifetime = 0
  · subst h
    refine ⟨by simp [update], fun hpos => absurd rfl (Nat.ne_of_gt hpos ∘ Eq.symm), fun _ => ?_⟩
    refine ⟨by simp [update], fun t => ?_⟩
    simp [update, expire]
  · refine ⟨by simp [update, h], fun _ => by simp [update, h], fun h0 => absurd h0 h⟩

/-- Witness for C5: updating with lifetime 10 at time 5 yields expiry 15 and
state `AVAILABLE`. -/
theorem update_spec_witness :
    (update [1] 10 5 eW).filter_expire = 15 ∧
    (update [1] 10 5 eW).filter_state = FILTER_AVAILABLE := by
  exact (update_spec eW [1] 10 5).2.1 (by decide)

/-- C6: `expire(now)` moves the filter state to `EXPIRED` exactly when the
state is `AVAILABLE` and the expiry timestamp has been reached; in every
other case the entry is unchanged, and `FINAL` in particular never
expires. -/
theorem expire_spec (e : NeighborEntry) (now : Nat) :
    (e.filter_state = FILTER_AVAILABLE → e.filter_expire ≤ now →
      (expire now e).filter_state = FILTER_EXPIRED) ∧
    (¬(e.filter_state = FILTER_AVAILABLE ∧ e.filter_expire ≤ now) →
      expire now e = e) ∧
    (e.filter_state = FILTER_FINAL → (expire now e).filter_state = FILTER_FINAL) := by
  refine ⟨fun h1 h2 => by simp [expire, h1, h2], fun h => by simp [expire, h], fun h => ?_⟩
  have hne : ¬(e.filter_state = FILTER_AVAILABLE ∧ e.filter_expire ≤ now) := by
    rintro ⟨ha, -⟩
    rw [h] at ha
    exact absurd ha (by decide)
  simp [expire, hne, h]

/-- Witness for C6: an `AVAILABLE` filter whose expiry timestamp 10 has
passed at time 11 becomes `EXPIRED`. -/
theorem expire_spec_witness :
    (expire 11 { eW with filter_state := FILTER_AVAILABLE, filter_expire := 10 }).filter_state =
      FILTER_EXPIRED := by
  exact (expire_spec { eW with filter_state := FILTER_AVAILABLE, filter_expire := 10 } 11).1
    rfl (by decide)

/-- One ledger operation preserves the ledger invariant: an acquire either
fails without mutation or inserts a fresh id into a set below the bound; a
release only ever shrinks the set. -/
theorem ledgerInv_runLedgerOp (e : NeighborEntry) (op : LedgerOp)
    (h : LedgerInv e) : LedgerInv (runLedgerOp e op) := by
  obtain ⟨hlen, hnd⟩ := h
  cases op with
  | acquire id =>
      show LedgerInv (acquireTransfer id e).2
      by_cases h1 : id ∈ e.transit_bundles
      · have hu : (acquireTransfer id e).2 = e := by simp [acquireTransfer, h1]
        rw [hu]
        exact ⟨hlen, hnd⟩
      · by_cases h2 : e.transit_bundles.length = e.max_slots
        · have hu : (acquireTransfer id e).2 = e := by simp [acquireTransfer, h1, h2]
          rw [hu]
          exact ⟨hlen, hnd⟩
        · have hu : (acquireTransfer id e).2 =
              { e with transit_bundles := id :: e.transit_bundles } := by
            simp [acquireTransfer, h1, h2]
          rw [hu]
          refine ⟨?_, List.nodup_cons.mpr ⟨h1, hnd⟩⟩
          simp only [List.length_cons]
          omega
  | release id =>
      exact ⟨le_trans (List.erase_sublist id e.transit_bundles).length_le hlen,
        hnd.erase id⟩

/-- Running any operation sequence from an invariant state keeps the
invariant. -/
theorem ledgerInv_runLedgerOps (ops : List LedgerOp) (e : NeighborEntry)
    (h : LedgerInv e) : LedgerInv (runLedgerOps e ops) := by
  induction ops generalizing e with
  | nil => exact h
  | cons op ops ih => exact ih (runLedgerOp e op) (ledgerInv_runLedgerOp e op h)

/-- C2: from the initial (empty) ledger state, every sequence of
`acquireTransfer`/`releaseTransfer` calls keeps the in-transit set within
`max_slots` and free of duplicates, and every single ledger operation
preserves this invariant. -/
theorem ledger_inv_spec (eid ms : Nat) (ops : List LedgerOp) (e : NeighborEntry)
    (op : LedgerOp) :
    LedgerInv (runLedgerOps (initNeighborEntry eid ms) ops) ∧
    (LedgerInv e → LedgerInv (runLedgerOp e op)) :=
  ⟨ledgerInv_runLedgerOps ops (initNeighborEntry eid ms)
      ⟨Nat.zero_le ms, List.nodup_nil⟩,
    ledgerInv_runLedgerOp e op⟩

/-- Witness for C2: a sequence that retries a duplicate and overfills a
two-slot ledger still satisfies the invariant, and one more acquire
preserves it. -/
theorem ledger_inv_spec_witness :
    LedgerInv (runLedgerOps (initNeighborEntry 0 2)
      [LedgerOp.acquire 1, LedgerOp.acquire 1, LedgerOp.acquire 2,
        LedgerOp.acquire 3, LedgerOp.release 9]) ∧
    LedgerInv (runLedgerOp (initNeighborEntry 0 2) (LedgerOp.acquire 4)) := by
  refine ⟨(ledger_inv_spec 0 2
      [LedgerOp.acquire 1, LedgerOp.acquire 1, LedgerOp.acquire 2,
        LedgerOp.acquire 3, LedgerOp.release 9] eW (LedgerOp.acquire 4)).1, ?_⟩
  exact (ledger_inv_spec 0 2 [] (initNeighborEntry 0 2) (LedgerOp.acquire 4)).2
    ⟨Nat.zero_le 2, List.nodup_nil⟩

/-- Datasets and transit contents of a fold of releases: the slot constant
is untouched by releases. -/
theorem releaseFold_max_slots (ids : List Nat) (e : NeighborEntry) :
    (ids.foldl (fun a i => releaseTransfer i a) e).max_slots = e.max_slots := by
  induction ids generalizing e with
  | nil => rfl
  | cons i ids ih => exact ih (releaseTransfer i e)

/-- C7: `releaseTransfer` removes a present id from the in-transit set (it
is absent afterwards, the size drops by exactly one, and every other id's
membership is untouched), is a no-op when the id is not in transit, is
idempotent on set-shaped (duplicate-free) states, and no sequence of
releases drives the free-slot count above `max_slots` (nor the set length
below zero, which `Nat` sizes make immediate). -/
theorem releaseTransfer_spec (e : NeighborEntry) (id : Nat) :
    (id ∉ e.transit_bundles → releaseTransfer id e = e) ∧
    (id ∈ e.transit_bundles → e.transit_bundles.Nodup →
      id ∉ (releaseTransfer id e).transit_bundles ∧
      (releaseTransfer id e).transit_bundles.length + 1 =
        e.transit_bundles.length ∧
      ∀ x, x ≠ id →
        (x ∈ (releaseTransfer id e).transit_bundles ↔ x ∈ e.transit_bundles)) ∧
    (e.transit_bundles.Nodup →
      releaseTransfer id (releaseTransfer id e) = releaseTransfer id e) ∧
    (∀ ids : List Nat,
      (getFreeTransferSlots (ids.foldl (fun a i => releaseTransfer i a) e)).1 ≤
        e.max_slots) ∧
    (releaseTransfer id e).transit_bundles.length ≤ e.transit_bundles.length := by
  refine ⟨fun h => ?_, fun hmem hnd => ?_, fun hnd => ?_, fun ids => ?_, ?_⟩
  · simp [releaseTransfer, List.erase_of_not_mem h]
  · refine ⟨hnd.not_mem_erase, ?_, fun x hx => List.mem_erase_of_ne hx⟩
    have hpos : 0 < e.transit_bundles.length := List.length_pos_of_mem hmem
    show (e.transit_bundles.erase id).length + 1 = e.transit_bundles.length
    rw [List.length_erase_of_mem hmem]
    omega
  · simp [releaseTransfer, List.erase_of_not_mem hnd.not_mem_erase]
  · calc (getFreeTransferSlots (ids.foldl (fun a i => releaseTransfer i a) e)).1
        ≤ (ids.foldl (fun a i => releaseTransfer i a) e).max_slots :=
          Nat.sub_le _ _
      _ = e.max_slots := releaseFold_max_slots ids e
  · exact (List.erase_sublist id e.transit_bundles).length_le

/-- Witness for C7: releasing bundle 1 from the in-transit set `[1, 2]`
leaves it out of transit, and releasing it twice equals releasing it
once. -/
theorem releaseTransfer_spec_witness :
    1 ∉ (releaseTransfer 1 { eW with transit_bundles := [1, 2] }).transit_bundles ∧
    releaseTransfer 1 (releaseTransfer 1 { eW with transit_bundles := [1, 2] }) =
      releaseTransfer 1 { eW with transit_bundles := [1, 2] } := by
  refine ⟨((releaseTransfer_spec { eW with transit_bundles := [1, 2] } 1).2.1
      (by decide) (by decide)).1, ?_⟩
  exact (releaseTransfer_spec { eW with transit_bundles := [1, 2] } 1).2.2.1 (by decide)

/-- C10: every query — `has`, `getFreeTransferSlots`,
`isTransferThresholdReached`, `getDataset` — returns the entry unchanged,
whether it succeeds or fails. -/
theorem query_frame (e : NeighborEntry) (id tid ttag : Nat) (rf : Bool) :
    (has id rf e).2 = e ∧
    (getFreeTransferSlots e).2 = e ∧
    (isTransferThresholdReached e).2 = e ∧
    (getDataset tid ttag e).2 = e := by
  refine ⟨?_, rfl, rfl, ?_⟩
  · unfold has
    split
    · rfl
    · split <;> rfl
  · unfold getDataset
    split
    · rfl
    · split <;> rfl

/-- Replacing by identifier leaves exactly one dataset with that identifier:
the freshly stored one. -/
theorem filter_put_eq_singleton (d : Dataset) (l : List Dataset) :
    (d :: l.filter (fun x => x.ident != d.ident)).filter
      (fun x => x.ident == d.ident) = [d] := by
  rw [List.filter_cons_of_pos (by simp), List.filter_filter]
  have hnil : (l.filter fun a => (a.ident == d.ident) && (a.ident != d.ident)) = [] := by
    refine List.filter_eq_nil_iff.mpr fun a _ => ?_
    by_cases h : a.ident = d.ident <;> simp [h]
  rw [hnil]

/-- C8: `putDataset` replaces the dataset with the same identifier, so after
two puts with equal identifiers exactly the second dataset of that
identifier is stored and retrievable; `getDataset` fails with
`DatasetNotAvailable` when no dataset has the identifier and also when the
found dataset has a different runtime type (the failed `dynamic_cast`);
`removeDataset` is a no-op when absent, and afterwards (on a
set-shaped registry, identifiers pairwise distinct) `getDataset` fails. -/
theorem dataset_spec (e : NeighborEntry) (d1 d2 : Dataset) (tid ttag : Nat) :
    (d1.ident = d2.ident →
      (putDataset d2 (putDataset d1 e)).datasets.filter
          (fun x => x.ident == d2.ident) = [d2] ∧
      (getDataset d2.ident d2.tyTag (putDataset d2 (putDataset d1 e))).1 =
        Except.ok d2.value) ∧
    ((∀ x ∈ e.datasets, x.ident ≠ tid) →
      (getDataset tid ttag e).1 = Except.error DBError.DatasetNotAvailable) ∧
    (∀ d, findDataset tid e = some d → d.tyTag ≠ ttag →
      (getDataset tid ttag e).1 = Except.error DBError.DatasetNotAvailable) ∧
    ((∀ x ∈ e.datasets, x.ident ≠ tid) → removeDataset tid e = e) ∧
    ((e.datasets.map Dataset.ident).Nodup →
      (getDataset tid ttag (removeDataset tid e)).1 =
        Except.error DBError.DatasetNotAvailable) := by
  have hnone : (∀ x ∈ e.datasets, x.ident ≠ tid) → findDataset tid e = none := by
    intro h
    refine List.find?_eq_none.mpr fun x hx => ?_
    simpa using h x hx
  refine ⟨fun hident => ⟨filter_put_eq_singleton d2 _, ?_⟩,
    fun h => ?_, fun d hfd htag => ?_, fun h => ?_, fun hnd => ?_⟩
  · have hfind : findDataset d2.ident (putDataset d2 (putDataset d1 e)) = some d2 := by
      simp only [findDataset, putDataset]
      exact List.find?_cons_of_pos _ (by simp)
    simp [getDataset, hfind]
  · simp [getDataset, hnone h]
  · simp [getDataset, hfd, htag]
  · simp [removeDataset, hnone h]
  · cases hfd : findDataset tid e with
    | none => simp [getDataset, removeDataset, hfd]
    | some d =>
        have hdl : d ∈ e.datasets := List.mem_of_find?_eq_some hfd
        have hdi : d.ident = tid := by simpa using List.find?_some hfd
        have hset : e.datasets.Nodup := hnd.of_map Dataset.ident
        have hgone : findDataset tid { e with datasets := e.datasets.erase d } = none := by
          refine List.find?_eq_none.mpr fun x hx => ?_
          have hxl : x ∈ e.datasets := (List.erase_sublist d e.datasets).mem hx
          simp only [decide_eq_true_eq, beq_iff_eq]
          intro hxi
          have hxd : x = d :=
            List.inj_on_of_nodup_map hnd hxl hdl (by rw [hxi, hdi])
          rw [hxd] at hx
          exact hset.not_mem_erase hx
        simp [removeDataset, hfd, getDataset, hgone]

/-- Witness for C8: overwriting the dataset with identifier 4 leaves only
the second value stored, and retrieval yields it. -/
theorem dataset_spec_witness :
    (putDataset ⟨4, 0, 2⟩ (putDataset ⟨4, 0, 1⟩ eW)).datasets.filter
        (fun x => x.ident == 4) = [⟨4, 0, 2⟩] ∧
    (getDataset 4 0 (putDataset ⟨4, 0, 2⟩ (putDataset ⟨4, 0, 1⟩ eW))).1 =
      Except.ok 2 := by
  exact (dataset_spec eW ⟨4, 0, 1⟩ ⟨4, 0, 2⟩ 4 0).1 rfl

/-- C9: `get(eid)` fails with `NeighborNotAvailable` exactly when no entry
for `eid` exists, and returns the stored entry otherwise; `create(eid)`
returns the existing entry unchanged when present, and `get` immediately
after `create` returns the entry `create` returned. -/
theorem db_spec (db : DB) (eid : Nat) :
    ((DB.get eid db = Except.error DBError.NeighborNotAvailable) ↔
      ∀ p ∈ db.entries, p.1 ≠ eid) ∧
    (∀ p, db.entries.find? (fun q => q.1 == eid) = some p →
      DB.get eid db = Except.ok p.2) ∧
    (∀ p, db.entries.find? (fun q => q.1 == eid) = some p →
      DB.create eid db = (p.2, db)) ∧
    (DB.get eid (DB.create eid db).2 = Except.ok (DB.create eid db).1) := by
  refine ⟨?_, fun p hp => by simp [DB.get, hp], fun p hp => by simp [DB.create, hp], ?_⟩
  · constructor
    · intro h p hp hpe
      cases hfd : db.entries.find? (fun q => q.1 == eid) with
      | none =>
          have := List.find?_eq_none.mp hfd p hp
          simp [hpe] at this
      | some q => simp [DB.get, hfd] at h
    · intro h
      have hfd : db.entries.find? (fun q => q.1 == eid) = none :=
        List.find?_eq_none.mpr fun p hp => by simpa using h p hp
      simp [DB.get, hfd]
  · cases hfd : db.entries.find? (fun q => q.1 == eid) with
    | none =>
        simp only [DB.create, hfd]
        simp [DB.get, List.find?_cons_of_pos]
    | some p => simp [DB.create, DB.get, hfd]

/-- Witness for C9: in a one-entry database the stored entry is returned. -/
theorem db_spec_witness :
    DB.get 1 (DB.mk [(1, initNeighborEntry 1 5)]) =
      Except.ok (initNeighborEntry 1 5) := by
  exact (db_spec (DB.mk [(1, initNeighborEntry 1 5)]) 1).2.1
    (1, initNeighborEntry 1 5) rfl

end NeighborDatabase
